import Mathlib

/-!
Verification of the dns-orchestrator core against its specification.

The Rust sources under dns-orchestrator-core are shallowly embedded:
byte strings are lists of naturals (each < 256 where it matters), Rust
Result values become Except, Rust Option becomes Option, and a possible
panic is a dedicated outcome constructor.  Third-party cryptographic
primitives (PBKDF2-HMAC-SHA256 and the AES-256-GCM AEAD) are embedded as
parameters carrying exactly the interface laws their Rust types provide
(fixed output lengths, bytes below 256); all repository-level logic is
embedded concretely.
-/

namespace DnsOrchestrator

/-! ## Byte-level helpers: base64 (standard alphabet with padding) and hex -/

/-- Character of the standard base64 alphabet at index n (A-Z, a-z, 0-9, +, /).
Models the encoding table used by the base64 crate's STANDARD engine. -/
def b64Char (n : Nat) : Char :=
  if n < 26 then Char.ofNat (65 + n)
  else if n < 52 then Char.ofNat (71 + n)
  else if n < 62 then Char.ofNat (n - 4)
  else if n = 62 then '+'
  else '/'

/-- Index of a character in the standard base64 alphabet, none for
characters outside it (including the padding character). -/
def b64Index (c : Char) : Option Nat :=
  if 65 ≤ c.toNat ∧ c.toNat ≤ 90 then some (c.toNat - 65)
  else if 97 ≤ c.toNat ∧ c.toNat ≤ 122 then some (c.toNat - 97 + 26)
  else if 48 ≤ c.toNat ∧ c.toNat ≤ 57 then some (c.toNat - 48 + 52)
  else if c = '+' then some 62
  else if c = '/' then some 63
  else none

/-- Standard base64 encoding with padding, as produced by
base64::engine::general_purpose::STANDARD .encode. -/
def b64Encode : List Nat → List Char
  | [] => []
  | [b1] => [b64Char (b1 / 4), b64Char (b1 % 4 * 16), '=', '=']
  | [b1, b2] =>
    [b64Char (b1 / 4), b64Char (b1 % 4 * 16 + b2 / 16), b64Char (b2 % 16 * 4), '=']
  | b1 :: b2 :: b3 :: rest =>
    b64Char (b1 / 4) :: b64Char (b1 % 4 * 16 + b2 / 16) ::
      b64Char (b2 % 16 * 4 + b3 / 64) :: b64Char (b3 % 64) :: b64Encode rest

/-- Strict standard base64 decoding with canonical padding, as performed by
base64::engine::general_purpose::STANDARD .decode: the input length must be a
multiple of four, padding may appear only at the end, and the unused trailing
bits of the last symbol must be zero. -/
def b64Decode : List Char → Option (List Nat)
  | [] => some []
  | c1 :: c2 :: c3 :: c4 :: rest =>
    match b64Index c1, b64Index c2 with
    | some i1, some i2 =>
      if c3 = '=' then
        if c4 = '=' ∧ rest = [] then
          if i2 % 16 = 0 then some [i1 * 4 + i2 / 16] else none
        else none
      else
        match b64Index c3 with
        | some i3 =>
          if c4 = '=' then
            if rest = [] then
              if i3 % 4 = 0 then some [i1 * 4 + i2 / 16, i2 % 16 * 16 + i3 / 4]
              else none
            else none
          else
            match b64Index c4 with
            | some i4 =>
              (b64Decode rest).map
                (fun bs => (i1 * 4 + i2 / 16) :: (i2 % 16 * 16 + i3 / 4) ::
                  (i3 % 4 * 64 + i4) :: bs)
            | none => none
        | none => none
    | _, _ => none
  | _ => none

/-- Lowercase hex digit character, as used by hex::encode. -/
def hexChar (n : Nat) : Char :=
  if n < 10 then Char.ofNat (48 + n) else Char.ofNat (87 + n)

/-- Lowercase hex encoding of a byte string, modelling hex::encode. -/
def hexEncode : List Nat → List Char
  | [] => []
  | b :: rest => hexChar (b / 16) :: hexChar (b % 16) :: hexEncode rest

/-- Byte-wise xor of two byte strings, truncated to the shorter length. -/
def xorBytes (a b : List Nat) : List Nat := List.zipWith Nat.xor a b

/-! ## Error type and outcomes -/

/-- Unified error type of the core crate.  The enum itself is declared in the
crate's error module (not among the provided sources); its variants are taken
from their construction sites in the provided sources (crypto.rs, dnssec.rs,
ssl.rs) and from the spec's error taxonomy. -/
inductive CoreError where
  | ValidationError (msg : String)
  | NetworkError (msg : String)
  | SerializationError (msg : String)
  | AccountNotFound (msg : String)
deriving DecidableEq

/-- Outcome of running a Rust function that may return a value, return an
error, or panic.  A panic (process abort) is modelled as its own outcome so
that totality claims are expressible. -/
inductive RustOutcome (α : Type) where
  | panicked
  | error (e : CoreError)
  | ok (a : α)
deriving DecidableEq

/-! ## Credential cipher (crypto.rs)

The repository calls two third-party primitives:

* pbkdf2_hmac_array::<Sha256, 32>(password, salt, 100000) — a deterministic
  function of password and salt whose return type fixes the output to
  32 bytes;
* Aes256Gcm, an AEAD built from AES-CTR keystream encryption plus a 16-byte
  authentication tag that is a deterministic function of key, nonce and
  ciphertext; decryption recomputes the tag over the received ciphertext,
  compares, and on success xors with the same keystream.

Both are embedded as parameter structures carrying exactly those interface
laws; every repository-level step (random salt/nonce handling, base64
encoding and decoding, error collapsing, the Nonce::from_slice length
assertion) is embedded concretely. -/

/-- Interface of pbkdf2_hmac_array::<Sha256, 32> with its fixed iteration
count baked in: a deterministic key-derivation function returning a 32-byte
key.  derive models crypto.rs derive_key. -/
structure KdfModel where
  derive : String → List Nat → List Nat
  derive_length : ∀ pw salt, (derive pw salt).length = 32
  derive_bytes : ∀ pw salt, ∀ b ∈ derive pw salt, b < 256

/-- Interface of the Aes256Gcm AEAD from the aes_gcm crate: a CTR keystream
determined by key and nonce, and a 16-byte tag determined by key, nonce and
ciphertext.  The laws record the output lengths and byte ranges guaranteed by
the Rust types. -/
structure AeadModel where
  keystream : List Nat → List Nat → Nat → List Nat
  tag : List Nat → List Nat → List Nat → List Nat
  keystream_length : ∀ k n l, (keystream k n l).length = l
  keystream_bytes : ∀ k n l, ∀ b ∈ keystream k n l, b < 256
  tag_length : ∀ k n c, (tag k n c).length = 16
  tag_bytes : ∀ k n c, ∀ b ∈ tag k n c, b < 256

/-- Aes256Gcm.encrypt: ciphertext is the xored plaintext with the 16-byte
authentication tag appended. -/
def aeadEncrypt (A : AeadModel) (key nonce plaintext : List Nat) : List Nat :=
  let c := xorBytes plaintext (A.keystream key nonce plaintext.length)
  c ++ A.tag key nonce c

/-- Aes256Gcm.decrypt: split off the trailing 16-byte tag, recompute the tag
over the ciphertext body, and decrypt only when they agree; inputs shorter
than one tag fail. -/
def aeadDecrypt (A : AeadModel) (key nonce ct : List Nat) : Option (List Nat) :=
  if ct.length < 16 then none
  else
    let c := ct.take (ct.length - 16)
    let t := ct.drop (ct.length - 16)
    if t = A.tag key nonce c then some (xorBytes c (A.keystream key nonce c.length))
    else none

/-- Display text of base64 DecodeError values is third-party library output;
it is modelled as an uninterpreted constant because no claim depends on its
exact content, only on the repository-written text surrounding it. -/
def b64ErrMsg (_input : List Char) : String := "base64 decode error"

/-- crypto.rs encrypt.  The random 16-byte salt and 12-byte nonce filled in by
rand::thread_rng are taken as arguments (ambient randomness made explicit);
their lengths are fixed by the Rust array types [u8; 16] and [u8; 12].
Key and cipher construction (Aes256Gcm::new_from_slice) fails only on a key
length other than 32, kept as the code keeps it. -/
def encrypt (K : KdfModel) (A : AeadModel) (plaintext : List Nat)
    (password : String) (salt nonce_bytes : List Nat) :
    Except CoreError (List Char × List Char × List Char) :=
  let key := K.derive password salt
  if key.length = 32 then
    let ciphertext := aeadEncrypt A key nonce_bytes plaintext
    .ok (b64Encode salt, b64Encode nonce_bytes, b64Encode ciphertext)
  else
    .error (.SerializationError "Failed to create cipher: Invalid Length")

/-- crypto.rs decrypt.  Decodes the three base64 inputs (each failure mapped
to a SerializationError naming the offending field), re-derives the key from
the recorded salt, builds the cipher, converts the nonce with
Nonce::from_slice — which is GenericArray::from_slice and panics when the
slice length is not exactly 12 — and finally performs authenticated
decryption, collapsing any AEAD failure into one fixed message. -/
def decrypt (K : KdfModel) (A : AeadModel) (ciphertext_b64 : List Char)
    (password : String) (salt_b64 nonce_b64 : List Char) :
    RustOutcome (List Nat) :=
  match b64Decode salt_b64 with
  | none => .error (.SerializationError ("Invalid salt: " ++ b64ErrMsg salt_b64))
  | some salt =>
  match b64Decode nonce_b64 with
  | none => .error (.SerializationError ("Invalid nonce: " ++ b64ErrMsg nonce_b64))
  | some nonce_bytes =>
  match b64Decode ciphertext_b64 with
  | none =>
    .error (.SerializationError ("Invalid ciphertext: " ++ b64ErrMsg ciphertext_b64))
  | some ciphertext =>
  let key := K.derive password salt
  if key.length = 32 then
    if nonce_bytes.length = 12 then
      match aeadDecrypt A key nonce_bytes ciphertext with
      | some plaintext => .ok plaintext
      | none =>
        .error (.SerializationError
          "Decryption failed: invalid password or corrupted data")
    else .panicked
  else .error (.SerializationError "Failed to create cipher: Invalid Length")

/-- Trivial instance of the KDF interface, used to evaluate the cipher
theorems on concrete inputs. -/
def kdfDemo : KdfModel where
  derive := fun _ _ => List.replicate 32 7
  derive_length := fun _ _ => by simp
  derive_bytes := fun _ _ b hb => by
    rcases List.eq_of_mem_replicate hb with rfl; omega

/-- Trivial instance of the AEAD interface, used to evaluate the cipher
theorems on concrete inputs. -/
def aeadDemo : AeadModel where
  keystream := fun _ _ l => List.replicate l 1
  tag := fun _ _ c => List.replicate 16 (c.length % 256)
  keystream_length := fun _ _ l => by simp
  keystream_bytes := fun _ _ l b hb => by
    rcases List.eq_of_mem_replicate hb with rfl; omega
  tag_length := fun _ _ _ => by simp
  tag_bytes := fun _ _ c b hb => by
    rcases List.eq_of_mem_replicate hb with rfl
    exact Nat.mod_lt _ (by omega)

/-! ## DNSSEC inspector (services/toolbox/dnssec.rs)

The result record types are declared in the crate's types module (not among
the provided sources); their fields are taken from the spec's data model and
from the construction sites in dnssec.rs.  The hickory resolver is embedded
as data: each of the three lookups is an input that either failed (none) or
returned a list of records, and record data is a small inductive mirroring
the RData variants the code matches on. -/

/-- DNSKEY result record (spec data model; constructed in dnssec.rs). -/
structure DnskeyRecord where
  flags : Nat
  protocol : Nat
  algorithm : Nat
  algorithm_name : String
  public_key : String
  key_tag : Nat
  key_type : String
deriving DecidableEq

/-- DS result record (spec data model; constructed in dnssec.rs). -/
structure DsRecord where
  key_tag : Nat
  algorithm : Nat
  algorithm_name : String
  digest_type : Nat
  digest_type_name : String
  digest : String
deriving DecidableEq

/-- RRSIG result record (spec data model; constructed in dnssec.rs). -/
structure RrsigRecord where
  type_covered : String
  algorithm : Nat
  algorithm_name : String
  labels : Nat
  original_ttl : Nat
  signature_expiration : String
  signature_inception : String
  key_tag : Nat
  signer_name : String
  signature : String
deriving DecidableEq

/-- DNSSEC inspection result (spec data model; constructed in dnssec.rs). -/
structure DnssecResult where
  domain : String
  dnssec_enabled : Bool
  dnskey_records : List DnskeyRecord
  ds_records : List DsRecord
  rrsig_records : List RrsigRecord
  validation_status : String
  nameserver : String
  response_time_ms : Nat
  error : Option String
deriving DecidableEq

/-- Algorithm number to human label (RFC 8624 style), from dnssec.rs. -/
def get_algorithm_name (algorithm : Nat) : String :=
  if algorithm = 1 then "RSA/MD5 (deprecated)"
  else if algorithm = 3 then "DSA/SHA-1 (deprecated)"
  else if algorithm = 5 then "RSA/SHA-1"
  else if algorithm = 6 then "DSA-NSEC3-SHA1 (deprecated)"
  else if algorithm = 7 then "RSASHA1-NSEC3-SHA1"
  else if algorithm = 8 then "RSA/SHA-256"
  else if algorithm = 10 then "RSA/SHA-512"
  else if algorithm = 12 then "GOST R 34.10-2001"
  else if algorithm = 13 then "ECDSAP256SHA256"
  else if algorithm = 14 then "ECDSAP384SHA384"
  else if algorithm = 15 then "Ed25519"
  else if algorithm = 16 then "Ed448"
  else "Unknown (" ++ toString algorithm ++ ")"

/-- Digest type number to human label (RFC 4034), from dnssec.rs. -/
def get_digest_type_name (digest_type : Nat) : String :=
  if digest_type = 1 then "SHA-1"
  else if digest_type = 2 then "SHA-256"
  else if digest_type = 3 then "GOST R 34.11-94"
  else if digest_type = 4 then "SHA-384"
  else "Unknown (" ++ toString digest_type ++ ")"

/-- Decimal rendering of a natural, zero-padded on the left to width w,
matching chrono's zero-padded format specifiers. -/
def padNum (w : Nat) (n : Nat) : String :=
  let s := toString n
  if s.length < w then String.mk (List.replicate (w - s.length) '0') ++ s else s

/-- Civil date (year, month, day) of a day count since 1970-01-01, by the
standard Gregorian conversion, as chrono computes it for non-negative
timestamps. -/
def civilFromDays (days : Nat) : Nat × Nat × Nat :=
  let z := days + 719468
  let era := z / 146097
  let doe := z % 146097
  let yoe := (doe - doe / 1460 + doe / 36524 - doe / 146096) / 365
  let y := yoe + era * 400
  let doy := doe - (365 * yoe + yoe / 4 - yoe / 100)
  let mp := (5 * doy + 2) / 153
  let d := doy - (153 * mp + 2) / 5 + 1
  let m := if mp < 10 then mp + 3 else mp - 9
  (if m ≤ 2 then y + 1 else y, m, d)

/-- Rendering of a 32-bit Unix timestamp by chrono's
format("%Y-%m-%d %H:%M:%S UTC"), as applied to RRSIG timestamps in
dnssec.rs.  DateTime::from_timestamp always succeeds for u32 inputs, so the
code's "Invalid (raw)" fallback is unreachable there and has no counterpart
here. -/
def formatTimestampUtc (ts : Nat) : String :=
  let days := ts / 86400
  let secs := ts % 86400
  let ymd := civilFromDays days
  padNum 4 ymd.1 ++ "-" ++ padNum 2 ymd.2.1 ++ "-" ++ padNum 2 ymd.2.2 ++ " " ++
    padNum 2 (secs / 3600) ++ ":" ++ padNum 2 (secs % 3600 / 60) ++ ":" ++
    padNum 2 (secs % 60) ++ " UTC"

/-- DNS record types that appear in the embedded records, mirroring hickory's
RecordType for the variants the code touches. -/
inductive RecordTypeM where
  | A | AAAA | CNAME | MX | NS | SOA | TXT | RRSIG | SIG | DNSKEY | DS
  | unknownTy (code : Nat)
deriving DecidableEq

/-- Debug rendering of a record type, as produced by the derived Debug
implementation the code uses through format. -/
def rtDebug : RecordTypeM → String
  | .A => "A"
  | .AAAA => "AAAA"
  | .CNAME => "CNAME"
  | .MX => "MX"
  | .NS => "NS"
  | .SOA => "SOA"
  | .TXT => "TXT"
  | .RRSIG => "RRSIG"
  | .SIG => "SIG"
  | .DNSKEY => "DNSKEY"
  | .DS => "DS"
  | .unknownTy code => "Unknown(" ++ toString code ++ ")"

deriving instance DecidableEq for Except

/-- Payload of a DNSKEY record as exposed by hickory: flags, algorithm code,
raw public-key bytes, and the outcome of calculate_key_tag (a Result the
code handles). -/
structure DnskeyData where
  flags : Nat
  algorithm : Nat
  public_key_bytes : List Nat
  key_tag_result : Except String Nat
deriving DecidableEq

/-- hickory DNSKEY::zone_key: the RFC 4034 ZONE flag bit (0x0100). -/
def dnskeyZoneKey (flags : Nat) : Bool := flags &&& 256 ≠ 0

/-- hickory DNSKEY::secure_entry_point: the RFC 4034 SEP flag bit (0x0001). -/
def dnskeySep (flags : Nat) : Bool := flags &&& 1 ≠ 0

/-- hickory DNSKEY::is_key_signing_key: both zone-key and SEP bits set. -/
def dnskeyIsKsk (flags : Nat) : Bool := dnskeyZoneKey flags && dnskeySep flags

/-- Payload of a DS record as exposed by hickory. -/
structure DsData where
  key_tag : Nat
  algorithm : Nat
  digest_type : Nat
  digest_bytes : List Nat
deriving DecidableEq

/-- Payload of an RRSIG (or legacy SIG) record as exposed by hickory. -/
structure RrsigData where
  type_covered : RecordTypeM
  algorithm : Nat
  num_labels : Nat
  original_ttl : Nat
  sig_expiration : Nat
  sig_inception : Nat
  key_tag : Nat
  signer_name : String
  sig_bytes : List Nat
deriving DecidableEq

/-- Record data variants matched by dnssec.rs: the three DNSSEC payloads the
code extracts, plus a catch-all for any other RData (logged and skipped). -/
inductive RRData where
  | dnskey (d : DnskeyData)
  | ds (d : DsData)
  | rrsig (d : RrsigData)
  | sig (d : RrsigData)
  | otherData
deriving DecidableEq

/-- One record of the SOA lookup's record set: its record type and data. -/
structure SoaRecordEntry where
  rtype : RecordTypeM
  rdata : RRData
deriving DecidableEq

/-- Body of the DNSKEY loop in dnssec.rs: build the result record, falling
back to key_tag 0 when calculate_key_tag failed. -/
def processDnskey (d : DnskeyData) : DnskeyRecord :=
  { flags := d.flags
    protocol := 3
    algorithm := d.algorithm
    algorithm_name := get_algorithm_name d.algorithm
    public_key := String.mk (b64Encode d.public_key_bytes)
    key_tag := match d.key_tag_result with | .ok t => t | .error _ => 0
    key_type :=
      if dnskeyIsKsk d.flags then "KSK"
      else if dnskeyZoneKey d.flags then "ZSK"
      else "Unknown (flags=" ++ toString d.flags ++ ")" }

/-- Body of the DS loop in dnssec.rs. -/
def processDs (d : DsData) : DsRecord :=
  { key_tag := d.key_tag
    algorithm := d.algorithm
    algorithm_name := get_algorithm_name d.algorithm
    digest_type := d.digest_type
    digest_type_name := get_digest_type_name d.digest_type
    digest := String.mk (hexEncode d.digest_bytes) }

/-- Body of the RRSIG/SIG arms in dnssec.rs (both arms run the same code). -/
def processRrsig (d : RrsigData) : RrsigRecord :=
  { type_covered := rtDebug d.type_covered
    algorithm := d.algorithm
    algorithm_name := get_algorithm_name d.algorithm
    labels := d.num_labels
    original_ttl := d.original_ttl
    signature_expiration := formatTimestampUtc d.sig_expiration
    signature_inception := formatTimestampUtc d.sig_inception
    key_tag := d.key_tag
    signer_name := d.signer_name
    signature := String.mk (b64Encode d.sig_bytes) }

/-- IP address value produced by str::parse::<IpAddr>. -/
inductive IpAddrM where
  | v4 (a b c d : Nat)
  | v6 (segments : List Nat)
deriving DecidableEq

/-- Resolver endpoint chosen by dnssec_check: the system default
configuration, or a caller-supplied IP with an explicit port
(NameServerConfigGroup::from_ips_clear). -/
inductive ResolverChoice where
  | systemDefault
  | custom (ip : IpAddrM) (port : Nat)
deriving DecidableEq

/-- Ambient inputs of one dnssec_check invocation: the standard library's IP
parser, the system resolver addresses, the outcome of each of the three
lookups (none models Err), and the elapsed wall-clock milliseconds. -/
structure DnssecEnv where
  ipParse : String → Option IpAddrM
  systemServers : List String
  dnskeyLookup : Option (List RRData)
  dsLookup : Option (List RRData)
  soaLookup : Option (List SoaRecordEntry)
  elapsedMs : Nat

/-- get_system_dns from dnssec.rs: the default resolver IPs joined with
", ", or the literal "System Default" when none are configured. -/
def get_system_dns (servers : List String) : String :=
  if servers.isEmpty then "System Default" else String.intercalate ", " servers

/-- Resolver selection at the top of dnssec_check: absent or empty
nameserver picks the system default; a non-empty one must parse as an IP
literal (used with port 53) or the call fails with a ValidationError. -/
def selectResolver (env : DnssecEnv) (nameserver : Option String) :
    Except CoreError (ResolverChoice × String) :=
  match nameserver with
  | some ns =>
    if ns = "" then .ok (.systemDefault, get_system_dns env.systemServers)
    else
      match env.ipParse ns with
      | none => .error (.ValidationError ("Invalid DNS server address: " ++ ns))
      | some ip => .ok (.custom ip 53, ns)
  | none => .ok (.systemDefault, get_system_dns env.systemServers)

/-- DNSKEY loop of dnssec_check: on lookup success, every record whose data
is a DNSKEY is processed; other data is logged and skipped. -/
def dnskeyRecordsOf (env : DnssecEnv) : List DnskeyRecord :=
  match env.dnskeyLookup with
  | none => []
  | some rs => rs.filterMap fun r =>
      match r with
      | .dnskey d => some (processDnskey d)
      | _ => none

/-- DS loop of dnssec_check. -/
def dsRecordsOf (env : DnssecEnv) : List DsRecord :=
  match env.dsLookup with
  | none => []
  | some rs => rs.filterMap fun r =>
      match r with
      | .ds d => some (processDs d)
      | _ => none

/-- RRSIG loop of dnssec_check: scan the SOA lookup's record set for records
whose record type is RRSIG and process their RRSIG (or legacy SIG) data. -/
def rrsigRecordsOf (env : DnssecEnv) : List RrsigRecord :=
  match env.soaLookup with
  | none => []
  | some rs => rs.filterMap fun r =>
      if r.rtype = .RRSIG then
        match r.rdata with
        | .rrsig d => some (processRrsig d)
        | .sig d => some (processRrsig d)
        | _ => none
      else none

/-- Accumulation of the dnssec_enabled flag across the three phases: set on
DNSKEY lookup success, on DS lookup success, and on finding an RRSIG-typed
record in the SOA lookup's record set. -/
def dnssecEnabledOf (env : DnssecEnv) : Bool :=
  env.dnskeyLookup.isSome || env.dsLookup.isSome ||
    (match env.soaLookup with
     | none => false
     | some rs => rs.any fun r => r.rtype = .RRSIG)

/-- Verdict derivation at the end of dnssec_check. -/
def validationStatusOf (enabled : Bool) (dnskey_records : List DnskeyRecord)
    (ds_records : List DsRecord) : String :=
  if enabled then
    if !dnskey_records.isEmpty && !ds_records.isEmpty then "secure"
    else if !dnskey_records.isEmpty || !ds_records.isEmpty then "indeterminate"
    else "insecure"
  else "insecure"

/-- dnssec_check from dnssec.rs: select the resolver, run the three
independent lookups (their outcomes are part of the environment), derive the
verdict, and assemble the result. -/
def dnssec_check (env : DnssecEnv) (domain : String)
    (nameserver : Option String) : Except CoreError DnssecResult :=
  match selectResolver env nameserver with
  | .error e => .error e
  | .ok sel =>
    let dnskey_records := dnskeyRecordsOf env
    let ds_records := dsRecordsOf env
    let rrsig_records := rrsigRecordsOf env
    let dnssec_enabled := dnssecEnabledOf env
    .ok
      { domain := domain
        dnssec_enabled := dnssec_enabled
        dnskey_records := dnskey_records
        ds_records := ds_records
        rrsig_records := rrsig_records
        validation_status := validationStatusOf dnssec_enabled dnskey_records ds_records
        nameserver := sel.2
        response_time_ms := env.elapsedMs
        error := none }

/-! ## TLS certificate inspector (services/toolbox/ssl.rs)

The TCP/TLS transport is out of the embedded fragment; what is embedded is
everything the code computes from a retrieved certificate: the domain-match
predicate, certificate parsing into SslCertInfo, and the chain building of
both build configurations.  The x509_parser and chrono libraries appear as
parameters (a DER parse function and an RFC-2822 date parse function). -/

/-- Certificate chain entry (types/toolbox.rs). -/
structure CertChainItem where
  subject : String
  issuer : String
  is_ca : Bool
deriving DecidableEq

/-- Parsed certificate information (types/toolbox.rs). -/
structure SslCertInfo where
  domain : String
  issuer : String
  subject : String
  valid_from : String
  valid_to : String
  days_remaining : Int
  is_expired : Bool
  is_valid : Bool
  san : List String
  serial_number : String
  signature_algorithm : String
  certificate_chain : List CertChainItem
deriving DecidableEq

/-- General names found in a certificate's Subject-Alternative-Name
extension; the code keeps only the DNS-typed ones. -/
inductive GeneralNameM where
  | dnsName (s : String)
  | otherName
deriving DecidableEq

/-- View of an x509_parser X509Certificate, restricted to the accessors
parse_certificate calls: rendered subject and issuer, the outcomes of
to_rfc2822 on the two validity bounds, the SAN extension when present and
readable, the first Common-Name attribute (with its as_str outcome), the
serial number, the signature-algorithm OID rendering, and the CA flag. -/
structure X509CertM where
  subject : String
  issuer : String
  not_before_rfc2822 : Option String
  not_after_rfc2822 : Option String
  san_ext : Option (List GeneralNameM)
  cn_first : Option (Option String)
  serial : Nat
  signature_algorithm : String
  is_ca : Bool
deriving DecidableEq

/-- Rust str::strip_suffix: remove t from the end of s when it is a suffix. -/
def rustStripTail (s t : List Char) : Option (List Char) :=
  if t <:+ s then some (s.take (s.length - t.length)) else none

/-- matches_domain from ssl.rs: exact equality, or single-level wildcard —
a pattern star-dot-suffix matches query = front ++ suffix where front ends
with a dot and contains no further dot before it. -/
def matches_domain (query pattern : List Char) : Bool :=
  if query = pattern then true
  else
    match pattern with
    | '*' :: '.' :: suffixPart =>
      match rustStripTail query suffixPart with
      | some front =>
        decide (front.getLast? = some '.') && !(front.dropLast.contains '.')
      | none => false
    | _ => false

/-- Rust str::to_lowercase as used on domain names; ASCII case mapping (the
Unicode special cases are outside the embedded fragment). -/
def strLower (s : String) : String := String.mk (s.data.map Char.toLower)

/-- check_domain_match from ssl.rs: lowercase the query and test it against
the lowercased Common Name and every lowercased SAN entry. -/
def check_domain_match (query : String) (cn : Option String)
    (san : List String) : Bool :=
  let query_lower := strLower query
  (match cn with
   | some c => matches_domain query_lower.data (strLower c).data
   | none => false) ||
  san.any fun name => matches_domain query_lower.data (strLower name).data

/-- Serial-number rendering in parse_certificate: to_str_radix(16) followed
by to_uppercase. -/
def natHexUpper (n : Nat) : String := String.mk ((Nat.toDigits 16 n).map Char.toUpper)

/-- parse_certificate from ssl.rs, parametrised by chrono's RFC-2822 date
parser (seconds since epoch on success) and the current time in seconds.
days_remaining is chrono Duration::num_days, i64 division truncating toward
zero; a valid_to string the library cannot re-parse falls back to now. -/
def parse_certificate (rfc2822Parse : String → Option Int) (now : Int)
    (query : String) (_port : Nat) (cert : X509CertM) : SslCertInfo :=
  let subject := cert.subject
  let issuer := cert.issuer
  let valid_from := cert.not_before_rfc2822.getD ""
  let valid_to := cert.not_after_rfc2822.getD ""
  let not_after := (rfc2822Parse valid_to).getD now
  let days_remaining := Int.tdiv (not_after - now) 86400
  let is_expired := decide (days_remaining < 0)
  let san : List String :=
    match cert.san_ext with
    | some names => names.filterMap fun n =>
        match n with
        | .dnsName s => some s
        | .otherName => none
    | none => []
  let cn : Option String :=
    match cert.cn_first with
    | some (some s) => some s
    | _ => none
  let cert_domain := ((cn.orElse fun _ => san.head?).getD query)
  let domain_matches := check_domain_match query cn san
  { domain := cert_domain
    issuer := issuer
    subject := subject
    valid_from := valid_from
    valid_to := valid_to
    days_remaining := days_remaining
    is_expired := is_expired
    is_valid := !is_expired && domain_matches
    san := san
    serial_number := natHexUpper cert.serial
    signature_algorithm := cert.signature_algorithm
    certificate_chain := [{ subject := subject, issuer := issuer, is_ca := cert.is_ca }] }

/-- Chain building of the rustls ssl_check variant: parse every certificate
the peer presented and keep the parseable ones, in presentation order. -/
def rustls_chain (x509FromDer : List Nat → Option X509CertM)
    (certs : List (List Nat)) : List CertChainItem :=
  certs.filterMap fun c =>
    (x509FromDer c).map fun parsed =>
      { subject := parsed.subject, issuer := parsed.issuer, is_ca := parsed.is_ca }

/-- Certificate tail of the rustls ssl_check variant: an empty peer list or
an unparseable leaf yields no cert_info; otherwise parse_certificate runs on
the leaf and the certificate_chain field is overwritten with the full parsed
chain. -/
def ssl_cert_info_rustls (x509FromDer : List Nat → Option X509CertM)
    (rfc2822Parse : String → Option Int) (now : Int) (domain : String)
    (port : Nat) (certs : List (List Nat)) : Option SslCertInfo :=
  match certs with
  | [] => none
  | leaf :: _ =>
    match x509FromDer leaf with
    | none => none
    | some cert =>
      let base := parse_certificate rfc2822Parse now domain port cert
      some { base with certificate_chain := rustls_chain x509FromDer certs }

/-- Certificate tail of the native-tls ssl_check variant: only the leaf is
exposed by the library, and the chain is the one parse_certificate builds. -/
def ssl_cert_info_native (rfc2822Parse : String → Option Int) (now : Int)
    (domain : String) (port : Nat) (cert : X509CertM) : SslCertInfo :=
  parse_certificate rfc2822Parse now domain port cert

/-! ## Concrete instances used to evaluate the theorems -/

/-- Environment in which the DNSKEY lookup succeeded but its only record is
not DNSKEY data. -/
def envDemoOther : DnssecEnv :=
  { ipParse := fun _ => none
    systemServers := []
    dnskeyLookup := some [.otherData]
    dsLookup := none
    soaLookup := none
    elapsedMs := 0 }

/-- Environment with two configured system resolvers and an IP parser that
accepts exactly 9.9.9.9. -/
def envDemoIp : DnssecEnv :=
  { ipParse := fun s => if s = "9.9.9.9" then some (.v4 9 9 9 9) else none
    systemServers := ["8.8.8.8", "1.1.1.1"]
    dnskeyLookup := none
    dsLookup := none
    soaLookup := none
    elapsedMs := 5 }

/-- DNSKEY payload whose key-tag computation failed. -/
def dnskeyDemo : DnskeyData :=
  { flags := 257
    algorithm := 8
    public_key_bytes := [1, 2, 3]
    key_tag_result := .error "key tag computation failed" }

/-- DS payload used alongside dnskeyDemo. -/
def dsDemo : DsData :=
  { key_tag := 7, algorithm := 8, digest_type := 2, digest_bytes := [171, 205] }

/-- Environment whose DNSKEY lookup returned one record with a failing
key-tag computation, alongside a DS record. -/
def envDemoDnskey : DnssecEnv :=
  { ipParse := fun _ => none
    systemServers := ["8.8.8.8"]
    dnskeyLookup := some [.dnskey dnskeyDemo]
    dsLookup := some [.ds dsDemo]
    soaLookup := none
    elapsedMs := 3 }

/-- Result of dnssec_check in envDemoDnskey with no custom nameserver. -/
def dnssecDemoResult : DnssecResult :=
  { domain := "example.com"
    dnssec_enabled := true
    dnskey_records := [processDnskey dnskeyDemo]
    ds_records := [processDs dsDemo]
    rrsig_records := []
    validation_status := "secure"
    nameserver := "8.8.8.8"
    response_time_ms := 3
    error := none }

/-- Result of dnssec_check in envDemoOther with no custom nameserver: the
flag is set although every record collection is empty. -/
def dnssecOtherResult : DnssecResult :=
  { domain := "example.com"
    dnssec_enabled := true
    dnskey_records := []
    ds_records := []
    rrsig_records := []
    validation_status := "insecure"
    nameserver := "System Default"
    response_time_ms := 0
    error := none }

/-- Concrete certificate used to evaluate the TLS theorems. -/
def certDemo : X509CertM :=
  { subject := "CN=example.com"
    issuer := "CN=Demo CA"
    not_before_rfc2822 := some "Mon, 01 Jan 2024 00:00:00 +0000"
    not_after_rfc2822 := some "not a date"
    san_ext := some [.dnsName "example.com", .otherName]
    cn_first := some (some "example.com")
    serial := 48879
    signature_algorithm := "1.2.840.113549.1.1.11"
    is_ca := false }

/-- DER parse function recognising exactly one byte string. -/
def chainDemoParse : List Nat → Option X509CertM :=
  fun c => if c = [48, 1] then some certDemo else none

/-- Peer-presented chain of two certificates, the second unparseable. -/
def chainDemoCerts : List (List Nat) := [[48, 1], [0]]

/-- RFC-2822 parse function that fails on every input, for evaluating the
fallback path. -/
def rfcDemoParseNone : String → Option Int := fun _ => none

/-- Certificate info produced by the rustls variant for a one-certificate
chain consisting of the demo certificate. -/
def sslDemoInfo : SslCertInfo :=
  { parse_certificate rfcDemoParseNone 0 "example.com" 443 certDemo with
    certificate_chain := rustls_chain chainDemoParse [[48, 1]] }

/-! ## Library facts about the byte-level helpers -/

/-- Decoding a base64 alphabet character recovers its index. -/
theorem b64Index_b64Char : ∀ n : Nat, n < 64 → b64Index (b64Char n) = some n := by
  decide

/-- Base64 alphabet characters are never the padding character. -/
theorem b64Char_ne_pad : ∀ n : Nat, n < 64 → b64Char n ≠ '=' := by
  decide

/-- Strict base64 decoding inverts encoding on byte strings. -/
theorem b64_decode_encode :
    ∀ l : List Nat, (∀ b ∈ l, b < 256) → b64Decode (b64Encode l) = some l
  | [], _ => rfl
  | [b1], h => by
    have hb : b1 < 256 := h b1 (by simp)
    have h1 : b64Index (b64Char (b1 / 4)) = some (b1 / 4) :=
      b64Index_b64Char _ (by omega)
    have h2 : b64Index (b64Char (b1 % 4 * 16)) = some (b1 % 4 * 16) :=
      b64Index_b64Char _ (by omega)
    simp [b64Encode, b64Decode, h1, h2]
    omega
  | [b1, b2], h => by
    have hb1 : b1 < 256 := h b1 (by simp)
    have hb2 : b2 < 256 := h b2 (by simp)
    have h1 : b64Index (b64Char (b1 / 4)) = some (b1 / 4) :=
      b64Index_b64Char _ (by omega)
    have h2 : b64Index (b64Char (b1 % 4 * 16 + b2 / 16)) = some (b1 % 4 * 16 + b2 / 16) :=
      b64Index_b64Char _ (by omega)
    have h3 : b64Index (b64Char (b2 % 16 * 4)) = some (b2 % 16 * 4) :=
      b64Index_b64Char _ (by omega)
    have h3ne : b64Char (b2 % 16 * 4) ≠ '=' := b64Char_ne_pad _ (by omega)
    simp [b64Encode, b64Decode, h1, h2, h3, h3ne]
    omega
  | b1 :: b2 :: b3 :: rest, h => by
    have hb1 : b1 < 256 := h b1 (by simp)
    have hb2 : b2 < 256 := h b2 (by simp)
    have hb3 : b3 < 256 := h b3 (by simp)
    have ih : b64Decode (b64Encode rest) = some rest :=
      b64_decode_encode rest (fun b hb => h b (by simp [hb]))
    have h1 : b64Index (b64Char (b1 / 4)) = some (b1 / 4) :=
      b64Index_b64Char _ (by omega)
    have h2 : b64Index (b64Char (b1 % 4 * 16 + b2 / 16)) = some (b1 % 4 * 16 + b2 / 16) :=
      b64Index_b64Char _ (by omega)
    have h3 : b64Index (b64Char (b2 % 16 * 4 + b3 / 64)) = some (b2 % 16 * 4 + b3 / 64) :=
      b64Index_b64Char _ (by omega)
    have h4 : b64Index (b64Char (b3 % 64)) = some (b3 % 64) :=
      b64Index_b64Char _ (by omega)
    have h3ne : b64Char (b2 % 16 * 4 + b3 / 64) ≠ '=' := b64Char_ne_pad _ (by omega)
    have h4ne : b64Char (b3 % 64) ≠ '=' := b64Char_ne_pad _ (by omega)
    simp [b64Encode, b64Decode, h1, h2, h3, h4, h3ne, h4ne, ih]
    omega

/-- Length of a byte-wise xor. -/
theorem xorBytes_length (a b : List Nat) :
    (xorBytes a b).length = min a.length b.length := by
  simp [xorBytes]

/-- Xoring twice with the same keystream is the identity. -/
theorem xorBytes_cancel :
    ∀ p s : List Nat, p.length ≤ s.length → xorBytes (xorBytes p s) s = p
  | [], _, _ => by simp [xorBytes]
  | a :: as, [], h => by simp at h
  | a :: as, b :: bs, h => by
    have ih := xorBytes_cancel as bs (by simpa using h)
    simp [xorBytes] at ih ⊢
    exact ⟨Nat.xor_cancel_right b a, ih⟩

/-- Byte-wise xor keeps values below 256. -/
theorem xorBytes_bytes :
    ∀ a b : List Nat, (∀ x ∈ a, x < 256) → (∀ x ∈ b, x < 256) →
      ∀ x ∈ xorBytes a b, x < 256
  | [], _, _, _ => by simp [xorBytes]
  | a :: as, [], _, _ => by simp [xorBytes]
  | a :: as, b :: bs, ha, hb => by
    intro x hx
    simp [xorBytes] at hx
    rcases hx with rfl | hx
    · have : a ^^^ b < 2 ^ 8 :=
        Nat.xor_lt_two_pow (by simpa using ha a (by simp)) (by simpa using hb b (by simp))
      simpa using this
    · exact xorBytes_bytes as bs (fun y hy => ha y (by simp [hy]))
        (fun y hy => hb y (by simp [hy])) x hx

/-- AEAD round trip: decrypting an encryption with the same key and nonce
recovers the plaintext. -/
theorem aead_roundtrip (A : AeadModel) (k n p : List Nat) :
    aeadDecrypt A k n (aeadEncrypt A k n p) = some p := by
  show (if (aeadEncrypt A k n p).length < 16 then none
    else
      let c := (aeadEncrypt A k n p).take ((aeadEncrypt A k n p).length - 16)
      let t := (aeadEncrypt A k n p).drop ((aeadEncrypt A k n p).length - 16)
      if t = A.tag k n c then some (xorBytes c (A.keystream k n c.length))
      else none) = some p
  simp only [aeadEncrypt]
  have hclen : (xorBytes p (A.keystream k n p.length)).length = p.length := by
    simp [xorBytes_length, A.keystream_length]
  have htlen :
      (A.tag k n (xorBytes p (A.keystream k n p.length))).length = 16 :=
    A.tag_length k n _
  have hlen :
      (xorBytes p (A.keystream k n p.length) ++
        A.tag k n (xorBytes p (A.keystream k n p.length))).length = p.length + 16 := by
    simp [hclen, htlen]
  rw [if_neg (by omega)]
  have hsub :
      (xorBytes p (A.keystream k n p.length) ++
        A.tag k n (xorBytes p (A.keystream k n p.length))).length - 16 =
      (xorBytes p (A.keystream k n p.length)).length := by omega
  rw [hsub, List.take_left, List.drop_left, if_pos rfl, hclen]
  rw [xorBytes_cancel p _ (by simp [A.keystream_length])]

/-! ## Credential cipher claims -/

/-- C1: for every plaintext byte string M and password P, decrypting the
triple produced by encrypt(M, P) — whatever fresh salt and nonce the call
drew — with the same password succeeds and returns exactly M. -/
theorem c1_encrypt_decrypt_roundtrip (K : KdfModel) (A : AeadModel)
    (M : List Nat) (P : String) (salt nonce : List Nat)
    (hM : ∀ b ∈ M, b < 256) (hsalt : ∀ b ∈ salt, b < 256)
    (hnonce : ∀ b ∈ nonce, b < 256) (hlen : nonce.length = 12) :
    ∀ s n c, encrypt K A M P salt nonce = .ok (s, n, c) →
      decrypt K A c P s n = .ok M := by
  intro s n c henc
  unfold encrypt at henc
  rw [if_pos (K.derive_length P salt)] at henc
  injection henc with henc
  injection henc with h1 henc
  injection henc with h2 h3
  subst h1
  subst h2
  subst h3
  have hct : ∀ b ∈ aeadEncrypt A (K.derive P salt) nonce M, b < 256 := by
    intro b hb
    simp only [aeadEncrypt] at hb
    rcases List.mem_append.mp hb with h | h
    · exact xorBytes_bytes M _ hM (A.keystream_bytes _ _ _) b h
    · exact A.tag_bytes _ _ _ b h
  simp only [decrypt, b64_decode_encode salt hsalt, b64_decode_encode nonce hnonce,
    b64_decode_encode _ hct, K.derive_length, hlen, aead_roundtrip, if_true]

/-- C1 witness: the round trip evaluated on a concrete plaintext, password,
salt and nonce under concrete primitive instances. -/
theorem c1_witness :
    decrypt kdfDemo aeadDemo
      (b64Encode (aeadEncrypt aeadDemo (kdfDemo.derive "pw" (List.replicate 16 0))
        (List.replicate 12 0) [104, 105]))
      "pw" (b64Encode (List.replicate 16 0)) (b64Encode (List.replicate 12 0)) =
      .ok [104, 105] :=
  c1_encrypt_decrypt_roundtrip kdfDemo aeadDemo [104, 105] "pw"
    (List.replicate 16 0) (List.replicate 12 0)
    (by decide) (by decide) (by decide) (by decide) _ _ _ (by decide)

/-- C2 counterexample: a malformed base64 salt fails with a different error
value than a wrong password or corrupted ciphertext does, so decryption
failures are not a single undifferentiated error. -/
theorem c2_counterexample :
    decrypt kdfDemo aeadDemo (b64Encode (List.replicate 16 1)) "pw" ['!']
        (b64Encode (List.replicate 12 0)) =
      .error (.SerializationError ("Invalid salt: " ++ b64ErrMsg ['!'])) ∧
    decrypt kdfDemo aeadDemo (b64Encode (List.replicate 16 1)) "pw"
        (b64Encode (List.replicate 16 0)) (b64Encode (List.replicate 12 0)) =
      .error (.SerializationError "Decryption failed: invalid password or corrupted data") ∧
    ("Invalid salt: " ++ b64ErrMsg ['!']) ≠
      "Decryption failed: invalid password or corrupted data" :=
  ⟨by decide, by decide, by decide⟩

/-- C2 as amended: every decryption failure is reported through the same
SerializationError variant, and the authenticated-decryption failure — which
covers both a wrong password and corrupted data — always carries the one
fixed undifferentiated message; only base64 malformation of an input is
reported with a message naming the offending field. -/
theorem c2_failure_collapsing :
    (∀ (K : KdfModel) (A : AeadModel) ct pw s n e,
        decrypt K A ct pw s n = .error e → ∃ m, e = .SerializationError m) ∧
    (∀ (K : KdfModel) (A : AeadModel) ct pw s n sbytes nbytes cbytes,
        b64Decode s = some sbytes → b64Decode n = some nbytes →
        b64Decode ct = some cbytes → nbytes.length = 12 →
        aeadDecrypt A (K.derive pw sbytes) nbytes cbytes = none →
        decrypt K A ct pw s n =
          .error (.SerializationError
            "Decryption failed: invalid password or corrupted data")) := by
  constructor
  · intro K A ct pw s n e h
    unfold decrypt at h
    iterate 8 (all_goals (try dsimp only [] at h); all_goals try split at h)
    all_goals
      first
        | exact RustOutcome.noConfusion h
        | exact ⟨_, (RustOutcome.error.inj h).symm⟩
  · intro K A ct pw s n sbytes nbytes cbytes hs hn hc hn12 haead
    simp only [decrypt, hs, hn, hc, K.derive_length, hn12, haead, if_true]

/-- C2 witness: the amended statement evaluated at a concrete tampered
ciphertext. -/
theorem c2_witness :
    decrypt kdfDemo aeadDemo (b64Encode (List.replicate 16 1)) "pw"
        (b64Encode (List.replicate 16 0)) (b64Encode (List.replicate 12 0)) =
      .error (.SerializationError
        "Decryption failed: invalid password or corrupted data") :=
  c2_failure_collapsing.2 kdfDemo aeadDemo _ _ _ _
    (List.replicate 16 0) (List.replicate 12 0) (List.replicate 16 1)
    (by decide) (by decide) (by decide) (by decide) (by decide)

/-- C3 counterexample: on a nonce that is valid base64 but decodes to three
bytes, decrypt panics (the GenericArray length assertion inside
Nonce::from_slice) instead of returning an error value. -/
theorem c3_counterexample :
    decrypt kdfDemo aeadDemo (b64Encode (List.replicate 16 1)) "pw"
      (b64Encode (List.replicate 16 0)) ['A', 'A', 'A', 'A'] = .panicked := by
  decide

/-- C3 as amended: decrypt never panics as long as a successfully decoded
nonce has exactly 12 bytes; every other input — including a salt of any
decoded length and malformed base64 anywhere — yields a value or an error. -/
theorem c3_no_panic_with_valid_nonce_length :
    ∀ (K : KdfModel) (A : AeadModel) ct pw s n,
      (∀ nbytes, b64Decode n = some nbytes → nbytes.length = 12) →
      decrypt K A ct pw s n ≠ .panicked := by
  intro K A ct pw s n hn h
  unfold decrypt at h
  cases hsd : b64Decode s with
  | none => simp [hsd] at h
  | some sbytes =>
    cases hnd : b64Decode n with
    | none => simp [hsd, hnd] at h
    | some nbytes =>
      cases hcd : b64Decode ct with
      | none => simp [hsd, hnd, hcd] at h
      | some cbytes =>
        have h12 := hn nbytes hnd
        by_cases hk : (K.derive pw sbytes).length = 32
        · cases had : aeadDecrypt A (K.derive pw sbytes) nbytes cbytes <;>
            simp [hsd, hnd, hcd, hk, h12, had] at h
        · simp [hsd, hnd, hcd, hk] at h

/-- C3 witness: the amended statement evaluated at a concrete well-formed
nonce. -/
theorem c3_witness :
    decrypt kdfDemo aeadDemo [] "pw" [] (b64Encode (List.replicate 12 0)) ≠
      .panicked :=
  c3_no_panic_with_valid_nonce_length kdfDemo aeadDemo [] "pw" []
    (b64Encode (List.replicate 12 0))
    (fun nbytes h => by
      have hd : b64Decode (b64Encode (List.replicate 12 0)) =
          some (List.replicate 12 0) := by decide
      rw [hd] at h
      cases h
      decide)

/-! ## DNSSEC inspector claims -/

/-- Inversion of a successful dnssec_check call: resolver selection
succeeded and the result is the assembled record. -/
theorem dnssec_check_ok {env : DnssecEnv} {domain : String}
    {nameserver : Option String} {res : DnssecResult}
    (h : dnssec_check env domain nameserver = .ok res) :
    ∃ sel, selectResolver env nameserver = .ok sel ∧
      res = { domain := domain
              dnssec_enabled := dnssecEnabledOf env
              dnskey_records := dnskeyRecordsOf env
              ds_records := dsRecordsOf env
              rrsig_records := rrsigRecordsOf env
              validation_status :=
                validationStatusOf (dnssecEnabledOf env) (dnskeyRecordsOf env)
                  (dsRecordsOf env)
              nameserver := sel.2
              response_time_ms := env.elapsedMs
              error := none } := by
  unfold dnssec_check at h
  cases hsel : selectResolver env nameserver with
  | error e => rw [hsel] at h; exact Except.noConfusion h
  | ok sel =>
    rw [hsel] at h
    injection h with h
    exact ⟨sel, rfl, h.symm⟩

/-- A non-empty record collection forces the dnssec_enabled flag. -/
theorem enabled_of_nonempty (env : DnssecEnv)
    (h : dnskeyRecordsOf env ≠ [] ∨ dsRecordsOf env ≠ [] ∨ rrsigRecordsOf env ≠ []) :
    dnssecEnabledOf env = true := by
  rcases h with h | h | h
  · cases hl : env.dnskeyLookup with
    | none => exact absurd (by simp [dnskeyRecordsOf, hl]) h
    | some rs => simp [dnssecEnabledOf, hl]
  · cases hl : env.dsLookup with
    | none => exact absurd (by simp [dsRecordsOf, hl]) h
    | some rs => simp [dnssecEnabledOf, hl]
  · cases hl : env.soaLookup with
    | none => exact absurd (by simp [rrsigRecordsOf, hl]) h
    | some rs =>
      have : ∃ r ∈ rs, r.rtype = RecordTypeM.RRSIG := by
        by_contra hno
        push_neg at hno
        refine h ?_
        simp only [rrsigRecordsOf, hl]
        refine List.filterMap_eq_nil_iff.mpr fun r hr => ?_
        rw [if_neg (hno r hr)]
      obtain ⟨r, hr, hrt⟩ := this
      simp only [dnssecEnabledOf, hl, Bool.or_eq_true, List.any_eq_true]
      exact Or.inr ⟨r, hr, by simp [hrt]⟩

/-- C4: the validation status is derived exactly by the verdict table over
the parsed collections and the enabled flag. -/
theorem c4_verdict_table :
    ∀ env domain ns res, dnssec_check env domain ns = .ok res →
      ((res.dnskey_records ≠ [] ∧ res.ds_records ≠ [] →
          res.validation_status = "secure") ∧
       ((res.dnskey_records ≠ [] ∧ res.ds_records = []) ∨
          (res.dnskey_records = [] ∧ res.ds_records ≠ []) →
          res.validation_status = "indeterminate") ∧
       (res.dnskey_records = [] → res.ds_records = [] → res.dnssec_enabled = true →
          res.validation_status = "insecure") ∧
       (res.dnssec_enabled = false → res.validation_status = "insecure")) := by
  intro env domain ns res h
  obtain ⟨sel, hsel, rfl⟩ := dnssec_check_ok h
  refine ⟨?_, ?_, ?_, ?_⟩
  · rintro ⟨h1, h2⟩
    have hen := enabled_of_nonempty env (Or.inl h1)
    simp_all [validationStatusOf]
  · rintro (⟨h1, h2⟩ | ⟨h1, h2⟩)
    · have hen := enabled_of_nonempty env (Or.inl h1)
      simp_all [validationStatusOf]
    · have hen := enabled_of_nonempty env (Or.inr (Or.inl h2))
      simp_all [validationStatusOf]
  · intro h1 h2 hen
    simp_all [validationStatusOf]
  · intro hen
    simp_all [validationStatusOf]

/-- C4 witness: the verdict table evaluated in an environment where both the
DNSKEY and DS collections are non-empty. -/
theorem c4_witness : dnssecDemoResult.validation_status = "secure" :=
  (c4_verdict_table envDemoDnskey "example.com" none dnssecDemoResult
    (by decide)).1 ⟨by decide, by decide⟩

/-- C5 counterexample: in an environment where the DNSKEY lookup succeeded
but returned no parseable DNSKEY data, dnssec_enabled is true while all
three record collections are empty, refuting the stated equivalence. -/
theorem c5_counterexample :
    ¬ (∀ res, dnssec_check envDemoOther "example.com" none = .ok res →
        (res.dnssec_enabled = true ↔
          (res.dnskey_records ≠ [] ∨ res.ds_records ≠ [] ∨
            res.rrsig_records ≠ []))) := by
  intro hclaim
  have h := hclaim dnssecOtherResult (by decide)
  rcases h.mp (by decide) with h2 | h2 | h2 <;> exact h2 (by decide)

/-- C5 as amended: non-empty record collections imply dnssec_enabled, and
dnssec_enabled holds exactly when the DNSKEY lookup succeeded, the DS lookup
succeeded, or the SOA lookup succeeded with at least one RRSIG-typed record
— a successful lookup whose records all fail to parse therefore sets the
flag while leaving the collections empty. -/
theorem c5_enabled_characterisation :
    ∀ env domain ns res, dnssec_check env domain ns = .ok res →
      ((res.dnskey_records ≠ [] ∨ res.ds_records ≠ [] ∨ res.rrsig_records ≠ []) →
        res.dnssec_enabled = true) ∧
      (res.dnssec_enabled = true ↔
        (env.dnskeyLookup ≠ none ∨ env.dsLookup ≠ none ∨
          ∃ rs, env.soaLookup = some rs ∧
            ∃ r ∈ rs, r.rtype = RecordTypeM.RRSIG)) := by
  intro env domain ns res h
  obtain ⟨sel, hsel, rfl⟩ := dnssec_check_ok h
  constructor
  · exact fun h => enabled_of_nonempty env h
  · cases hl : env.soaLookup with
    | none =>
      simp [dnssecEnabledOf, hl, Option.isSome_iff_ne_none]
    | some rs =>
      simp only [dnssecEnabledOf, hl, Option.isSome_iff_ne_none, List.any_eq_true,
        Bool.or_eq_true, decide_eq_true_eq, Option.some.injEq, exists_eq_left']
      constructor
      · rintro ((h | h) | h)
        · exact Or.inl h
        · exact Or.inr (Or.inl h)
        · exact Or.inr (Or.inr h)
      · rintro (h | h | h)
        · exact Or.inl (Or.inl h)
        · exact Or.inl (Or.inr h)
        · exact Or.inr h

/-- C5 witness: the amended characterisation evaluated in the environment of
the counterexample. -/
theorem c5_witness : dnssecOtherResult.dnssec_enabled = true :=
  ((c5_enabled_characterisation envDemoOther "example.com" none
    dnssecOtherResult (by decide)).2).mpr (Or.inl (by decide))

/-- C8: resolver selection — an absent or empty nameserver uses the system
default resolvers and reports them comma-joined (the literal
"System Default" when none are configured); a non-empty string that does not
parse as an IP literal fails with a ValidationError no matter what any
lookup would have returned; a parsed one is used with port 53 and echoed
back verbatim. -/
theorem c8_resolver_selection :
    ∀ env domain,
      (∀ res, dnssec_check env domain none = .ok res →
        res.nameserver =
          if env.systemServers = [] then "System Default"
          else String.intercalate ", " env.systemServers) ∧
      (∀ res, dnssec_check env domain (some "") = .ok res →
        res.nameserver =
          if env.systemServers = [] then "System Default"
          else String.intercalate ", " env.systemServers) ∧
      (∀ ns, ns ≠ "" → env.ipParse ns = none →
        dnssec_check env domain (some ns) =
          .error (.ValidationError ("Invalid DNS server address: " ++ ns))) ∧
      (∀ ns ip, ns ≠ "" → env.ipParse ns = some ip →
        selectResolver env (some ns) = .ok (.custom ip 53, ns) ∧
        ∀ res, dnssec_check env domain (some ns) = .ok res →
          res.nameserver = ns) := by
  intro env domain
  refine ⟨?_, ?_, ?_, ?_⟩
  · intro res h
    obtain ⟨sel, hsel, rfl⟩ := dnssec_check_ok h
    simp only [selectResolver] at hsel
    injection hsel with hsel
    rw [← hsel]
    simp [get_system_dns, List.isEmpty_iff]
  · intro res h
    obtain ⟨sel, hsel, rfl⟩ := dnssec_check_ok h
    simp only [selectResolver, if_pos rfl] at hsel
    injection hsel with hsel
    rw [← hsel]
    simp [get_system_dns, List.isEmpty_iff]
  · intro ns hns hparse
    unfold dnssec_check selectResolver
    simp [hns, hparse]
  · intro ns ip hns hparse
    have hsel : selectResolver env (some ns) = .ok (.custom ip 53, ns) := by
      unfold selectResolver
      simp [hns, hparse]
    refine ⟨hsel, ?_⟩
    intro res h
    obtain ⟨sel, hsel2, rfl⟩ := dnssec_check_ok h
    rw [hsel] at hsel2
    injection hsel2 with hsel2
    rw [← hsel2]

/-- C8 witness: selection evaluated with a rejected and an accepted custom
nameserver. -/
theorem c8_witness :
    dnssec_check envDemoIp "example.com" (some "bad") =
      .error (.ValidationError ("Invalid DNS server address: " ++ "bad")) ∧
    selectResolver envDemoIp (some "9.9.9.9") =
      .ok (.custom (.v4 9 9 9 9) 53, "9.9.9.9") :=
  ⟨(c8_resolver_selection envDemoIp "example.com").2.2.1 "bad" (by decide) (by decide),
   ((c8_resolver_selection envDemoIp "example.com").2.2.2 "9.9.9.9" (.v4 9 9 9 9)
     (by decide) (by decide)).1⟩

/-- C10: a DNSKEY record whose key-tag computation failed is still appended
to the collection, with key_tag 0 and every other field populated as
usual. -/
theorem c10_keytag_failure_kept :
    ∀ env domain ns rs d msg res,
      env.dnskeyLookup = some rs →
      RRData.dnskey d ∈ rs →
      d.key_tag_result = .error msg →
      dnssec_check env domain ns = .ok res →
      processDnskey d ∈ res.dnskey_records ∧
      processDnskey d =
        { flags := d.flags
          protocol := 3
          algorithm := d.algorithm
          algorithm_name := get_algorithm_name d.algorithm
          public_key := String.mk (b64Encode d.public_key_bytes)
          key_tag := 0
          key_type :=
            if dnskeyIsKsk d.flags then "KSK"
            else if dnskeyZoneKey d.flags then "ZSK"
            else "Unknown (flags=" ++ toString d.flags ++ ")" } := by
  intro env domain ns rs d msg res hlk hmem herr h
  obtain ⟨sel, hsel, rfl⟩ := dnssec_check_ok h
  constructor
  · simp only [dnskeyRecordsOf, hlk]
    exact List.mem_filterMap.mpr ⟨RRData.dnskey d, hmem, rfl⟩
  · simp [processDnskey, herr]

/-- C10 witness: the failing-key-tag record evaluated in a concrete
environment appears in the result with key_tag 0. -/
theorem c10_witness :
    processDnskey dnskeyDemo ∈ dnssecDemoResult.dnskey_records :=
  (c10_keytag_failure_kept envDemoDnskey "example.com" none
    [RRData.dnskey dnskeyDemo] dnskeyDemo "key tag computation failed"
    dnssecDemoResult (by decide) (by decide) (by decide) (by decide)).1

/-! ## TLS certificate inspector claims -/

/-- C6: matches_domain accepts exactly equality or a single-level wildcard
match, and behaves as stated on the four listed examples. -/
theorem c6_matches_domain_spec :
    (∀ q p : List Char, matches_domain q p = true ↔
      (q = p ∨ ∃ lab suffi, p = '*' :: '.' :: suffi ∧
        q = lab ++ '.' :: suffi ∧ '.' ∉ lab)) ∧
    matches_domain "foo.example.com".data "*.example.com".data = true ∧
    matches_domain "foo.bar.example.com".data "*.example.com".data = false ∧
    matches_domain "example.com".data "*.example.com".data = false ∧
    matches_domain "example.com".data "example.com".data = true := by
  refine ⟨?_, by decide, by decide, by decide, by decide⟩
  intro q p
  constructor
  · intro h
    by_cases hqp : q = p
    · exact Or.inl hqp
    right
    unfold matches_domain at h
    rw [if_neg hqp] at h
    split at h
    case _ =>
      rename_i suffixPart
      rcases hst : rustStripTail q suffixPart with _ | front
      · rw [hst] at h
        exact absurd h (by simp)
      rw [hst] at h
      rw [Bool.and_eq_true] at h
      obtain ⟨h1, h2⟩ := h
      have hlast : front.getLast? = some '.' := of_decide_eq_true h1
      have hcont : front.dropLast.contains '.' = false := by
        cases hx : front.dropLast.contains '.'
        · rfl
        · rw [hx] at h2; exact absurd h2 (by simp)
      unfold rustStripTail at hst
      split at hst
      case isFalse => exact Option.noConfusion hst
      case isTrue hsuf =>
        obtain ⟨pre, hpre⟩ := hsuf
        injection hst with hst
        have hfront : front = pre := by
          rw [← hst, ← hpre]
          have hl : (pre ++ suffixPart).length - suffixPart.length = pre.length := by
            simp
          rw [hl, List.take_left]
        subst hfront
        have hne : front ≠ [] := by
          intro hnil
          rw [hnil] at hlast
          exact Option.noConfusion hlast
        have hsplit : front.dropLast ++ ['.'] = front := by
          have := List.dropLast_append_getLast hne
          have hgl : front.getLast hne = '.' := by
            have := List.getLast?_eq_getLast front hne
            rw [this] at hlast
            exact (Option.some.inj hlast)
          rw [hgl] at this
          exact this
        refine ⟨front.dropLast, suffixPart, rfl, ?_, ?_⟩
        · rw [← hpre, ← hsplit]
          simp
        · intro hmem
          have : front.dropLast.contains '.' = true := by
            exact List.elem_eq_true_of_mem hmem
          rw [this] at hcont
          exact Bool.noConfusion hcont
    case _ => simp at h
  · intro h
    rcases h with rfl | ⟨lab, suffi, rfl, rfl, hdot⟩
    · unfold matches_domain
      rw [if_pos rfl]
    · unfold matches_domain
      by_cases hqp : lab ++ '.' :: suffi = '*' :: '.' :: suffi
      · rw [if_pos hqp]
      · rw [if_neg hqp]
        have hsuf : suffi <:+ lab ++ '.' :: suffi := ⟨lab ++ ['.'], by simp⟩
        have htake :
            (lab ++ '.' :: suffi).take ((lab ++ '.' :: suffi).length - suffi.length) =
              lab ++ ['.'] := by
          have h1 : (lab ++ '.' :: suffi).length - suffi.length =
              (lab ++ ['.']).length := by
            simp only [List.length_append, List.length_cons, List.length_nil]
            omega
          rw [h1, show lab ++ '.' :: suffi = (lab ++ ['.']) ++ suffi by simp]
          exact List.take_left _ _
        have hst : rustStripTail (lab ++ '.' :: suffi) suffi = some (lab ++ ['.']) := by
          unfold rustStripTail
          rw [if_pos hsuf, htake]
        simp only [hst, List.getLast?_concat, List.dropLast_concat, Bool.and_eq_true,
          decide_eq_true_eq, Bool.not_eq_true']
        refine ⟨trivial, ?_⟩
        cases hx : lab.contains '.' with
        | false => rfl
        | true => exact absurd (List.mem_of_elem_eq_true hx) hdot

/-- C6 witness: the wildcard characterisation applied to a concrete query
and pattern. -/
theorem c6_witness :
    matches_domain "api.example.org".data "*.example.org".data = true :=
  (c6_matches_domain_spec.1 "api.example.org".data "*.example.org".data).mpr
    (Or.inr ⟨"api".data, "example.org".data, by decide, by decide, by decide⟩)

/-- C7 counterexample: a peer-presented chain of two certificates in which
the second does not parse yields a certificate_chain with a single entry, so
the chain does not contain one entry per exposed certificate. -/
theorem c7_counterexample :
    (ssl_cert_info_rustls chainDemoParse rfcDemoParseNone 0 "example.com" 443
        chainDemoCerts).map (fun i => i.certificate_chain.length) ≠
      some chainDemoCerts.length := by
  decide

/-- C7 as amended: the chain holds one entry for every exposed certificate
that parses as X.509, in presentation order with the leaf first —
unparseable chain certificates are skipped — and under native-tls, where
only the leaf is exposed, the chain is exactly the one leaf entry. -/
theorem c7_chain_building :
    (∀ (x509FromDer : List Nat → Option X509CertM) certs,
        (rustls_chain x509FromDer certs).length =
          (certs.filter fun c => (x509FromDer c).isSome).length) ∧
    (∀ x509FromDer rfc2822Parse now domain port leaf rest p info,
        x509FromDer leaf = some p →
        ssl_cert_info_rustls x509FromDer rfc2822Parse now domain port
          (leaf :: rest) = some info →
        info.certificate_chain.head? =
          some { subject := p.subject, issuer := p.issuer, is_ca := p.is_ca } ∧
        info.certificate_chain = rustls_chain x509FromDer (leaf :: rest)) ∧
    (∀ rfc2822Parse now domain port cert,
        (ssl_cert_info_native rfc2822Parse now domain port cert).certificate_chain =
          [{ subject := cert.subject, issuer := cert.issuer, is_ca := cert.is_ca }]) := by
  refine ⟨?_, ?_, ?_⟩
  · intro x509 certs
    induction certs with
    | nil => rfl
    | cons c cs ih =>
      cases hc : x509 c <;>
        simp [rustls_chain, List.filterMap_cons, List.filter_cons, hc] <;>
        simpa [rustls_chain] using ih
  · intro x509 rp now domain port leaf rest p info hp hinfo
    simp only [ssl_cert_info_rustls, hp, Option.some.injEq] at hinfo
    subst hinfo
    constructor
    · simp [rustls_chain, List.filterMap_cons, hp]
    · rfl
  · intro rp now domain port cert
    rfl

/-- C7 witness: the amended chain construction evaluated on a concrete
one-certificate chain. -/
theorem c7_witness :
    sslDemoInfo.certificate_chain.head? =
      some { subject := certDemo.subject, issuer := certDemo.issuer,
             is_ca := certDemo.is_ca } :=
  (c7_chain_building.2.1 chainDemoParse rfcDemoParseNone 0 "example.com" 443
    [48, 1] [] certDemo sslDemoInfo (by decide) (by decide)).1

/-- C9: when the rendered not_after date cannot be re-parsed, the current
time is substituted, so days_remaining is 0 and the certificate is reported
as not expired. -/
theorem c9_unparseable_expiry :
    ∀ rfc2822Parse now query port cert,
      rfc2822Parse (cert.not_after_rfc2822.getD "") = none →
      (parse_certificate rfc2822Parse now query port cert).days_remaining = 0 ∧
      (parse_certificate rfc2822Parse now query port cert).is_expired = false := by
  intro rp now query port cert h
  constructor <;> simp [parse_certificate, h, Int.sub_self]

/-- C9 witness: the fallback evaluated on the demo certificate, whose
rendered expiry date no parser accepts. -/
theorem c9_witness :
    (parse_certificate rfcDemoParseNone 1000 "example.com" 443 certDemo).days_remaining = 0 ∧
    (parse_certificate rfcDemoParseNone 1000 "example.com" 443 certDemo).is_expired = false :=
  c9_unparseable_expiry rfcDemoParseNone 1000 "example.com" 443 certDemo rfl

end DnsOrchestrator
